import Mathlib

/-!
Verification of the PatientSafetyApp interaction/safety-analysis pipeline.

Strings are modelled as lists of characters (`Str`); JavaScript string
operations (`toLowerCase`, `includes`, `trim`, `split`, template literals)
are given as executable functions over `Str`.  External HTTP calls are
modelled by oracle inputs: a fetch either fails (the promise rejected, or
timed out) or yields a response value.  All definitions are translated
from the repository sources `src/services/FdaService.ts` (namespace
`FdaService`) and `src/services/MedicalSafetyService.ts` (namespace
`MedicalSafetyService`).
-/

/-- Strings as character lists. -/
abbrev Str := List Char

/-- A Lean string literal viewed as a `Str`. -/
def lit (s : String) : Str := s.data

/-- The whitespace characters recognised by the model (JS `\s`, restricted
to the ASCII whitespace actually occurring in the data). -/
def jsWs (c : Char) : Bool := c = ' ' || c = '\t' || c = '\n' || c = '\r'

/-- JS `toLowerCase`. -/
def lowerStr (s : Str) : Str := s.map Char.toLower

/-- `startsW needle hay`: `hay` begins with `needle`. -/
def startsW : Str → Str → Bool
  | [], _ => true
  | _ :: _, [] => false
  | a :: as, b :: bs => a = b && startsW as bs

/-- JS `hay.includes(needle)`: `needle` occurs as a contiguous substring. -/
def hasSub (needle : Str) : Str → Bool
  | [] => needle.isEmpty
  | c :: t => startsW needle (c :: t) || hasSub needle t

/-- JS `trim` (leading and trailing whitespace removed). -/
def trimStr (s : Str) : Str :=
  ((s.dropWhile jsWs).reverse.dropWhile jsWs).reverse

/-- A JS string is blank when it is empty or `trim`s to the empty string
(the source tests `!s || s.trim() === ""`). -/
def isBlank (s : Str) : Bool := (trimStr s).isEmpty

/-- JS `Array.prototype.join(sep)`. -/
def joinSep (sep : Str) : List Str → Str
  | [] => []
  | [x] => x
  | x :: y :: t => x ++ sep ++ joinSep sep (y :: t)

namespace FdaService

/-- Severity tags of `FdaService.ts` (`"minor" | "moderate" | "major"`). -/
inductive Severity where
  | minor : Severity
  | moderate : Severity
  | major : Severity
deriving DecidableEq

/-- The trigger terms of the `major` branch of `determineSeverity`
(FdaService.ts lines 374-384). -/
def majorTriggers : List Str :=
  [lit "contraindicated", lit "avoid", lit "not recommended", lit "severe",
   lit "serious", lit "life-threatening", lit "fatal", lit "death",
   lit "warning"]

/-- The trigger terms of the `moderate` branch of `determineSeverity`
(FdaService.ts lines 386-394). -/
def moderateTriggers : List Str :=
  [lit "caution", lit "monitor", lit "adjust", lit "modify", lit "increase",
   lit "decrease", lit "may affect", lit "potential"]

/-- `determineSeverity` (FdaService.ts lines 369-400): lower-case the
description, return `major` on any major trigger, else `moderate` on any
moderate trigger, else `minor`. -/
def determineSeverity (description : Str) : Severity :=
  let lowercaseDesc := lowerStr description
  if majorTriggers.any fun t => hasSub t lowercaseDesc then .major
  else if moderateTriggers.any fun t => hasSub t lowercaseDesc then .moderate
  else .minor

/-- Sentence-ending punctuation of the splitting regex `[.!?]`. -/
def isSentEnd (c : Char) : Bool := c = '.' || c = '!' || c = '?'

/-- Whether a string starts with a whitespace character. -/
def headIsWs : Str → Bool
  | [] => false
  | c :: _ => jsWs c

/-- One-pass model of JS `text.split(/[.!?][\s\n]+/)`: a token ends when a
`[.!?]` character is followed by whitespace; the punctuation character and
the maximal whitespace run after it are removed (`skip` is true while that
run is being consumed); `cur` holds the current token reversed. -/
def splitSentAux : Bool → Str → Str → List Str
  | _, cur, [] => [cur.reverse]
  | skip, cur, c :: t =>
    if skip && jsWs c then splitSentAux true cur t
    else if isSentEnd c && headIsWs t then cur.reverse :: splitSentAux true [] t
    else splitSentAux false (c :: cur) t

/-- JS `text.split(/[.!?][\s\n]+/)`. -/
def splitSentences (text : Str) : List Str := splitSentAux false [] text

/-- JS `s.charAt(0).toUpperCase() + s.slice(1)`. -/
def capitalizeFirst : Str → Str
  | [] => []
  | c :: t => c.toUpper :: t

/-- JS `s.endsWith(".") ? s : s + "."`. -/
def ensureDot (s : Str) : Str := if s.getLast? = some '.' then s else s ++ ['.']

/-- `extractSentences` (FdaService.ts lines 494-509): split into sentences,
keep those whose trim is longer than 10 characters and has more than 3
space-separated parts (`trimmed.split(" ").length`, i.e. space count + 1),
take at most `maxSentences`, then trim, capitalize and add a period. -/
def extractSentences (text : Str) (maxSentences : Nat) : List Str :=
  if isBlank text then []
  else
    let sentences := (splitSentences text).filter fun s =>
      let trimmed := trimStr s
      decide (10 < trimmed.length) &&
        decide (3 < (trimmed.filter fun c => c = ' ').length + 1)
    (((sentences.take maxSentences).map trimStr).map capitalizeFirst).map ensureDot

/-- The recommendation keywords of `extractRecommendations`
(FdaService.ts lines 513-521). -/
def recommendationKeywords : List Str :=
  [lit "recommend", lit "should", lit "must", lit "advised",
   lit "advised to", lit "monitor", lit "avoid"]

/-- `extractRecommendations` (FdaService.ts lines 512-540): sentences with a
non-empty trim containing a recommendation keyword, trimmed, capitalized,
period-terminated, limited to 4. -/
def extractRecommendations (text : Str) : List Str :=
  let sentences := (splitSentences text).filter fun s =>
    decide (0 < (trimStr s).length)
  ((((sentences.filter fun sentence =>
        recommendationKeywords.any fun keyword =>
          hasSub keyword (lowerStr sentence)).map trimStr).map
      capitalizeFirst).map ensureDot).take 4

/-- `getDefaultRecommendations` (FdaService.ts lines 543-569). -/
def getDefaultRecommendations : Severity → List Str
  | .major =>
    [lit "Consult your healthcare provider immediately about this interaction.",
     lit "Do not start, stop, or change the dosage of any medicines without doctor approval.",
     lit "Report any unusual symptoms to your doctor right away.",
     lit "Make sure all healthcare providers know all medications you take."]
  | .moderate =>
    [lit "Discuss this interaction with your healthcare provider.",
     lit "Your doctor may need to monitor you more closely if these medications are taken together.",
     lit "Do not change your medication regimen without consulting your doctor.",
     lit "Be aware of potential side effects that may indicate an interaction."]
  | .minor =>
    [lit "Be aware of this potential interaction.",
     lit "Monitor for any unusual side effects when taking these medications together.",
     lit "Follow your prescribed medication schedule as directed by your doctor.",
     lit "Mention this combination to your healthcare provider at your next visit."]

/-- Result triple of `extractDirectFromFdaText`. -/
structure ExtractResult where
  simplifiedExplanation : Str
  possibleEffects : List Str
  recommendations : List Str
deriving DecidableEq

/-- `extractDirectFromFdaText` (FdaService.ts lines 403-491). -/
def extractDirectFromFdaText (drug1 drug2 : Str) (severity : Severity)
    (description : Str) : ExtractResult :=
  let sentences := extractSentences description 10
  let relevantSentences := sentences.filter fun sentence =>
    let ls := lowerStr sentence
    hasSub (lowerStr drug1) ls || hasSub (lowerStr drug2) ls ||
      hasSub (lit "interact") ls || hasSub (lit "effect") ls ||
      hasSub (lit "risk") ls || hasSub (lit "may") ls ||
      hasSub (lit "can") ls || hasSub (lit "should") ls
  let effectSentences := sentences.filter fun sentence =>
    let ls := lowerStr sentence
    (hasSub (lit "cause") ls || hasSub (lit "result") ls ||
        hasSub (lit "lead to") ls || hasSub (lit "effect") ls ||
        hasSub (lit "increas") ls || hasSub (lit "risk") ls ||
        hasSub (lit "toxicity") ls) &&
      !hasSub (lit "should") ls && !hasSub (lit "monitor") ls &&
      !hasSub (lit "avoid") ls
  let recommendationSentences := extractRecommendations description
  let mostRelevantSentence := relevantSentences.headD []
  let simplifiedExplanation :=
    if mostRelevantSentence.isEmpty then
      match severity with
      | .major => lit "The FDA drug information indicates a serious interaction between " ++
          drug1 ++ lit " and " ++ drug2 ++ lit "."
      | .moderate => lit "The FDA drug information indicates that " ++ drug1 ++
          lit " and " ++ drug2 ++ lit " may interact."
      | .minor => lit "The FDA drug information mentions potential minor interactions between " ++
          drug1 ++ lit " and " ++ drug2 ++ lit "."
    else mostRelevantSentence
  let possibleEffects :=
    if 0 < effectSentences.length then effectSentences.take 4
    else relevantSentences.take (min 4 relevantSentences.length)
  let recommendations :=
    if 0 < recommendationSentences.length then recommendationSentences
    else getDefaultRecommendations severity
  { simplifiedExplanation := simplifiedExplanation,
    possibleEffects :=
      if 0 < possibleEffects.length then possibleEffects
      else [lit "See full FDA text for specific details about " ++ drug1 ++
        lit " and " ++ drug2 ++ lit " interaction."],
    recommendations := recommendations }

/-- An interaction record as pushed by `checkMedicationInteractions`
(FdaService.ts lines 338-347; the `source` field is present on the pushed
objects even though the `MedicationInteraction` interface omits it). -/
structure MedicationInteraction where
  drug1 : Str
  drug2 : Str
  severity : Severity
  description : Str
  simplifiedExplanation : Str
  possibleEffects : List Str
  recommendations : List Str
  source : Str
deriving DecidableEq

/-- One result element of the FDA `DrugInteractionResponse`; the
`drug_interactions` field may be absent (`none`). -/
structure LabelResult where
  drug_interactions : Option (List Str)
deriving DecidableEq

/-- The body of an FDA label search response. -/
structure DrugInteractionResponse where
  results : List LabelResult
deriving DecidableEq

/-- Outcome of one strategy fetch: the promise rejected (`err`, covering
network errors, timeouts and HTTP errors) or resolved with a response. -/
inductive FetchOutcome where
  | err : FetchOutcome
  | ok : DrugInteractionResponse → FetchOutcome
deriving DecidableEq

/-- The truthiness test `response.data.results && response.data.results.length
> 0 && response.data.results[0].drug_interactions` used by strategies 1-4 and
by the final record guard (a present-but-empty array is truthy in JS). -/
def firstHasInteractions (r : DrugInteractionResponse) : Bool :=
  match r.results with
  | [] => false
  | h :: _ => h.drug_interactions.isSome

/-- The strategy-5 scan (FdaService.ts lines 274-288): some result has a
`drug_interactions` array whose space-joined lower-cased text contains
`drug2` lower-cased. -/
def strat5Hit (drug2 : Str) (r : DrugInteractionResponse) : Bool :=
  r.results.any fun result =>
    match result.drug_interactions with
    | some texts => hasSub (lowerStr drug2) (lowerStr (joinSep (lit " ") texts))
    | none => false

/-- Hit test of strategy `k`: strategies 1-4 (indices 0-3) use the
first-result truthiness test, strategy 5 (index 4) the broad scan. -/
def strategyHitFn (drug2 : Str) (k : Fin 5) : DrugInteractionResponse → Bool :=
  if k.val < 4 then firstHasInteractions else strat5Hit drug2

/-- Whether a fetch outcome is a hit for a given hit test. -/
def hitOutcome (hitFn : DrugInteractionResponse → Bool) : FetchOutcome → Bool
  | .err => false
  | .ok r => hitFn r

/-- Whether strategy `k`'s outcome is a hit for the pair. -/
def stratHit (drug2 : Str) (k : Fin 5) (out : FetchOutcome) : Bool :=
  hitOutcome (strategyHitFn drug2 k) out

/-- The `interactionSource` string set by each strategy on a hit
(FdaService.ts lines 194, 215, 237, 259, 283). -/
def stratSources (drug1 drug2 : Str) : Fin 5 → Str
  | 0 => drug1 ++ lit " label mentions " ++ drug2
  | 1 => drug2 ++ lit " label mentions " ++ drug1
  | 2 => drug1 ++ lit " generic label mentions " ++ drug2
  | 3 => drug2 ++ lit " generic label mentions " ++ drug1
  | 4 => lit "Broad search"

/-- The per-pair mutable state of the strategy loop: the last response
assigned (JS `null` initially), the `hasResults` flag and the
`interactionSource` string. -/
structure PairScan where
  response : Option DrugInteractionResponse
  hasResults : Bool
  interactionSource : Str
deriving DecidableEq

/-- One strategy attempt: skipped entirely when `hasResults` already holds;
a rejected fetch leaves the state unchanged (the `catch` only logs); a
resolved fetch overwrites `response` and, on a hit, sets `hasResults` and
the source string. -/
def stepStrategy (hitFn : DrugInteractionResponse → Bool) (src : Str)
    (out : FetchOutcome) (st : PairScan) : PairScan :=
  if st.hasResults then st
  else
    match out with
    | .err => st
    | .ok r =>
      if hitFn r then
        { response := some r, hasResults := true, interactionSource := src }
      else { st with response := some r }

/-- The five-strategy cascade of `checkMedicationInteractions`
(FdaService.ts lines 174-292), starting from `response = null`,
`hasResults = false`, `interactionSource = ""`. -/
def scanStrategies (drug1 drug2 : Str) (strat : Fin 5 → FetchOutcome) : PairScan :=
  stepStrategy (strategyHitFn drug2 4) (stratSources drug1 drug2 4) (strat 4)
    (stepStrategy (strategyHitFn drug2 3) (stratSources drug1 drug2 3) (strat 3)
      (stepStrategy (strategyHitFn drug2 2) (stratSources drug1 drug2 2) (strat 2)
        (stepStrategy (strategyHitFn drug2 1) (stratSources drug1 drug2 1) (strat 1)
          (stepStrategy (strategyHitFn drug2 0) (stratSources drug1 drug2 0) (strat 0)
            { response := none, hasResults := false, interactionSource := [] }))))

/-- Record construction from the final response (FdaService.ts lines
302-347): collect the relevant interaction texts across all results, join
them (falling back to the first result's texts), classify severity and
extract explanation/effects/recommendations. -/
def buildInteraction (drug1 drug2 src : Str) (r : DrugInteractionResponse) :
    MedicationInteraction :=
  let relevantTexts := r.results.flatMap fun result =>
    match result.drug_interactions with
    | some texts => texts.filter fun t =>
        let l := lowerStr t
        let d1 := lowerStr drug1
        let d2 := lowerStr drug2
        (hasSub d1 l && hasSub d2 l) || (hasSub d1 l && decide (d1 ≠ d2)) ||
          (hasSub d2 l && decide (d1 ≠ d2))
    | none => []
  let description :=
    if 0 < relevantTexts.length then joinSep (lit " ") relevantTexts
    else joinSep (lit " ")
      ((r.results.headD { drug_interactions := none }).drug_interactions.getD [])
  let severity := determineSeverity description
  let e := extractDirectFromFdaText drug1 drug2 severity description
  { drug1 := drug1, drug2 := drug2, severity := severity,
    description := description,
    simplifiedExplanation := e.simplifiedExplanation,
    possibleEffects := e.possibleEffects,
    recommendations := e.recommendations,
    source := lit "Data from FDA API: " ++ src }

/-- The per-pair body of `checkMedicationInteractions`: run the strategy
cascade, then push a record only under the final guard `hasResults &&
response && results.length > 0 && results[0].drug_interactions`
(FdaService.ts lines 295-301). -/
def tryPair (drug1 drug2 : Str) (strat : Fin 5 → FetchOutcome) :
    Option MedicationInteraction :=
  let st := scanStrategies drug1 drug2 strat
  match st.response with
  | none => none
  | some r =>
    if st.hasResults && firstHasInteractions r then
      some (buildInteraction drug1 drug2 st.interactionSource r)
    else none

/-- The index pairs enumerated by the nested loops `for i in [0, n)` /
`for j in [i+1, n)` (FdaService.ts lines 163-164), in iteration order. -/
def allPairs (n : Nat) : List (Nat × Nat) :=
  (List.range n).flatMap fun i =>
    (List.range' (i + 1) (n - (i + 1))).map fun j => (i, j)

/-- Contribution of one index pair: blank names are skipped before any
lookup (FdaService.ts lines 169-171); otherwise the strategy cascade runs
for the pair. -/
def pairContribution (medications : List Str)
    (oracle : Nat → Nat → Fin 5 → FetchOutcome) (p : Nat × Nat) :
    Option MedicationInteraction :=
  let drug1 := medications.getD p.1 []
  let drug2 := medications.getD p.2 []
  if isBlank drug1 || isBlank drug2 then none
  else tryPair drug1 drug2 (oracle p.1 p.2)

/-- `checkMedicationInteractions` (FdaService.ts lines 156-366), with the
external FDA fetches supplied by `oracle i j k` (the outcome of strategy
`k` for the pair at indices `i < j`).  Per-pair failures are swallowed by
the inner catch; the outer catch is unreachable since every fetch outcome
is handled per strategy. -/
def checkMedicationInteractions (medications : List Str)
    (oracle : Nat → Nat → Fin 5 → FetchOutcome) : List MedicationInteraction :=
  (allPairs medications.length).filterMap (pairContribution medications oracle)

/-- The index pairs for which lookups are actually issued: the enumerated
pairs whose two names are both non-blank. -/
def issuedLookupPairs (medications : List Str) : List (Nat × Nat) :=
  (allPairs medications.length).filter fun p =>
    !(isBlank (medications.getD p.1 []) || isBlank (medications.getD p.2 []))

end FdaService

namespace MedicalSafetyService

/-- Risk tiers `"low" | "medium" | "high"`. -/
inductive RiskLevel where
  | low : RiskLevel
  | medium : RiskLevel
  | high : RiskLevel
deriving DecidableEq

/-- `Symptom` (src/types/index.ts lines 12-18).  Note: there is no
`description` field. -/
structure Symptom where
  id : Str
  name : Str
  severity : Nat
  dateRecorded : Str
  notes : Option Str
deriving DecidableEq

/-- `Diagnosis` (src/types/index.ts lines 20-26). -/
structure Diagnosis where
  id : Str
  name : Str
  diagnosedDate : Str
  diagnosedBy : Str
  notes : Option Str
deriving DecidableEq

/-- The medication shape used by the analysis functions
(`{ id: string; name: string; dosage: string }`). -/
structure MedicationInput where
  id : Str
  name : Str
  dosage : Str
deriving DecidableEq

/-- `SymptomSafetyData` (MedicalSafetyService.ts lines 13-20). -/
structure SymptomSafetyData where
  symptomName : Str
  commonErrors : List Str
  potentialMisdiagnoses : List Str
  warningFlags : List Str
  recommendations : List Str
  riskLevel : RiskLevel
deriving DecidableEq

/-- `DiagnosisSafetyData` (MedicalSafetyService.ts lines 23-30). -/
structure DiagnosisSafetyData where
  diagnosisName : Str
  commonMismanagements : List Str
  criticalFollowupItems : List Str
  watchWarnings : List Str
  recommendations : List Str
  errorRiskLevel : RiskLevel
deriving DecidableEq

/-- `getMockSymptomSafetyData` (MedicalSafetyService.ts lines 71-218).
Its argument is a JS value that may be `undefined` (the orchestrator
passes `s.description`, a property `Symptom` does not have), modelled as
`Option Str`; on `undefined` the very first statement
`symptomName.toLowerCase()` throws a `TypeError`, modelled as `Except`. -/
def getMockSymptomSafetyData (symptomName : Option Str) :
    Except Str SymptomSafetyData :=
  match symptomName with
  | none => .error (lit "TypeError: Cannot read properties of undefined (reading 'toLowerCase')")
  | some nameStr =>
    let symptomLower := lowerStr nameStr
    if hasSub (lit "headache") symptomLower || hasSub (lit "head pain") symptomLower then
      .ok {
        symptomName := nameStr,
        commonErrors :=
          [lit "Failing to consider serious underlying causes like meningitis or stroke",
           lit "Not documenting the pattern and duration of headaches",
           lit "Inadequate follow-up on recurring severe headaches"],
        potentialMisdiagnoses :=
          [lit "Tension headache vs. migraine",
           lit "Secondary headache due to other conditions",
           lit "Medication overuse headache"],
        warningFlags :=
          [lit "Sudden onset severe headache ('worst headache of life')",
           lit "Headache with fever and neck stiffness",
           lit "Headache with neurological changes"],
        recommendations :=
          [lit "Keep a headache diary noting triggers and severity",
           lit "Mention any vision changes or other neurological symptoms",
           lit "Follow up if headaches worsen or change in character"],
        riskLevel := .medium }
    else if hasSub (lit "fever") symptomLower || hasSub (lit "temperature") symptomLower then
      .ok {
        symptomName := nameStr,
        commonErrors :=
          [lit "Not investigating persistent fever adequately",
           lit "Overlooking serious bacterial infections",
           lit "Inadequate follow-up on fever of unknown origin"],
        potentialMisdiagnoses :=
          [lit "Viral vs. bacterial infection",
           lit "Non-infectious causes of fever",
           lit "Drug-induced fever"],
        warningFlags :=
          [lit "Fever with rash",
           lit "Fever persisting more than 3 days",
           lit "Fever with altered mental status"],
        recommendations :=
          [lit "Monitor temperature regularly and record readings",
           lit "Note any associated symptoms like cough or pain",
           lit "Seek care if fever is very high or persists despite medication"],
        riskLevel := .medium }
    else if hasSub (lit "pain") symptomLower then
      .ok {
        symptomName := nameStr,
        commonErrors :=
          [lit "Inadequate assessment of pain characteristics",
           lit "Failing to consider referred pain",
           lit "Not reassessing pain after treatment"],
        potentialMisdiagnoses :=
          [lit "Musculoskeletal vs. organ-related pain",
           lit "Neuropathic vs. nociceptive pain",
           lit "Psychogenic pain"],
        warningFlags :=
          [lit "Pain that wakes from sleep",
           lit "Progressive worsening of pain",
           lit "Pain with other concerning symptoms"],
        recommendations :=
          [lit "Describe pain in detail: location, intensity, triggers",
           lit "Track response to treatments",
           lit "Report any changes in character or severity of pain"],
        riskLevel := .medium }
    else if hasSub (lit "fatigue") symptomLower || hasSub (lit "tired") symptomLower ||
        hasSub (lit "exhaustion") symptomLower then
      .ok {
        symptomName := nameStr,
        commonErrors :=
          [lit "Attributing fatigue to stress without adequate workup",
           lit "Missing underlying medical conditions",
           lit "Not considering medication side effects"],
        potentialMisdiagnoses :=
          [lit "Depression vs. physical causes",
           lit "Chronic fatigue syndrome vs. other conditions",
           lit "Sleep disorders"],
        warningFlags :=
          [lit "Progressive worsening fatigue",
           lit "Fatigue with unexplained weight loss",
           lit "Fatigue with other new symptoms"],
        recommendations :=
          [lit "Track energy levels throughout the day",
           lit "Note any activities that worsen or improve symptoms",
           lit "Discuss all medications with your provider"],
        riskLevel := .low }
    else
      .ok {
        symptomName := nameStr,
        commonErrors :=
          [lit "Failure to recognize serious underlying conditions",
           lit "Delayed diagnosis due to common symptom presentation",
           lit "Inadequate follow-up on persistent symptoms"],
        potentialMisdiagnoses :=
          [lit "Common conditions with similar presentations",
           lit "Failure to consider less common diagnosis options",
           lit "Cognitive bias in symptom assessment"],
        warningFlags :=
          [lit "Symptoms that persist beyond expected duration",
           lit "Symptoms that don't respond to initial treatment",
           lit "Symptoms accompanied by other concerning signs"],
        recommendations :=
          [lit "Keep detailed records of symptoms and timing",
           lit "Don't hesitate to seek a second opinion if concerned",
           lit "Follow up if symptoms worsen or don't improve"],
        riskLevel := .medium }

/-- `getMockDiagnosisSafetyData` (MedicalSafetyService.ts lines 223-315). -/
def getMockDiagnosisSafetyData (diagnosisName : Str) : DiagnosisSafetyData :=
  let diagnosisLower := lowerStr diagnosisName
  if hasSub (lit "hypertension") diagnosisLower ||
      hasSub (lit "high blood pressure") diagnosisLower then
    {
      diagnosisName := diagnosisName,
      commonMismanagements :=
        [lit "Inadequate blood pressure monitoring",
         lit "Not adjusting medications based on home readings",
         lit "Ignoring secondary causes of hypertension"],
      criticalFollowupItems :=
        [lit "Regular blood pressure checks",
         lit "Kidney function monitoring",
         lit "Cardiovascular risk assessment"],
      watchWarnings :=
        [lit "Very high readings (>180/120)",
         lit "Symptoms like headache, vision changes with high BP",
         lit "Medication side effects like dizziness or cough"],
      recommendations :=
        [lit "Maintain a home blood pressure log",
         lit "Follow medication schedule exactly",
         lit "Report any concerning symptoms promptly"],
      errorRiskLevel := .medium }
  else if hasSub (lit "diabetes") diagnosisLower then
    {
      diagnosisName := diagnosisName,
      commonMismanagements :=
        [lit "Inconsistent glucose monitoring",
         lit "Not adjusting insulin for activity or diet changes",
         lit "Missing early signs of complications"],
      criticalFollowupItems :=
        [lit "Regular HbA1c testing",
         lit "Annual eye examination",
         lit "Foot examinations"],
      watchWarnings :=
        [lit "Frequent hypoglycemia",
         lit "Persistent hyperglycemia despite treatment",
         lit "Symptoms of nerve damage or vision changes"],
      recommendations :=
        [lit "Check blood glucose as recommended",
         lit "Never skip medication doses",
         lit "Inspect feet daily for injuries or sores"],
      errorRiskLevel := .high }
  else
    {
      diagnosisName := diagnosisName,
      commonMismanagements :=
        [lit "Inadequate monitoring of condition progression",
         lit "Failure to adjust treatment based on response",
         lit "Overlooking potential medication interactions"],
      criticalFollowupItems :=
        [lit "Regular assessment of treatment effectiveness",
         lit "Monitoring for condition-specific complications",
         lit "Medication regimen adherence assessment"],
      watchWarnings :=
        [lit "Symptoms that worsen despite treatment",
         lit "New symptoms that develop during treatment",
         lit "Side effects from prescribed medications"],
      recommendations :=
        [lit "Keep all follow-up appointments",
         lit "Take medications exactly as prescribed",
         lit "Report any new or worsening symptoms promptly"],
      errorRiskLevel := .medium }

/-- JS `[...new Set(xs)]`: keep the first occurrence of each element
(`seen` accumulates the elements already emitted). -/
def dedupFirstAux (seen : List Str) : List Str → List Str
  | [] => []
  | a :: t => if a ∈ seen then dedupFirstAux seen t else a :: dedupFirstAux (a :: seen) t

/-- JS `[...new Set(xs)]`. -/
def dedupFirst (l : List Str) : List Str := dedupFirstAux [] l

/-- The diagnostic-error-risk block returned by
`evaluateDiagnosticErrorRisk`. -/
structure DiagnosticErrorRisk where
  riskLevel : RiskLevel
  potentialConcerns : List Str
  recommendations : List Str
deriving DecidableEq

/-- Outcomes of the two external fetches made by
`evaluateDiagnosticErrorRisk`.  `misdiagnosisEvents` is the sequence of
`reactionmeddrapt` strings traversed over the misdiagnosis events (`none`
when the fetch failed; a traversal aborted mid-way by a malformed event is
a shorter list, since pushes already made persist).
`medicationInfoResults` gives, per result of the label fetch, its
`patient_medication_information` texts (`none` when the fetch failed). -/
structure DiagErrOracle where
  misdiagnosisEvents : Option (List Str)
  medicationInfoResults : Option (List (List Str))

/-- `evaluateDiagnosticErrorRisk` (MedicalSafetyService.ts lines 1326-1481)
called with its two declared parameters.  The mutable `riskLevel`,
`potentialConcerns` and `recommendations` are threaded as staged values
`riskLevel1`-`riskLevel3` in source order: the FDA misdiagnosis scan
(medium per matching reaction), the severe-symptoms-without-diagnoses check
(high), the unaddressed-severe-symptom loop (medium per unaddressed
symptom), the label-fetch recommendation pushes, the three fixed
recommendations, then `[...new Set(...)]` deduplication. -/
def evaluateDiagnosticErrorRisk (symptoms : List Symptom)
    (diagnoses : List Diagnosis) (oracle : DiagErrOracle) : DiagnosticErrorRisk :=
  let highSeveritySymptoms := symptoms.filter fun s => 7 ≤ s.severity
  let matchingReactions :=
    match oracle.misdiagnosisEvents with
    | some reactions => reactions.filter fun r =>
        symptoms.any fun s => hasSub (lowerStr s.name) (lowerStr r)
    | none => []
  let fdaConcerns := matchingReactions.map fun r =>
    r ++ lit " has been associated with diagnostic errors"
  let riskLevel1 : RiskLevel :=
    if matchingReactions.isEmpty then .low else .medium
  let severeNoDiagnoses := !highSeveritySymptoms.isEmpty && diagnoses.isEmpty
  let concerns2 := fdaConcerns ++
    (if severeNoDiagnoses then
      [lit "You have severe symptoms without documented diagnoses. This may indicate a need for further evaluation."]
    else [])
  let recommendations1 :=
    if severeNoDiagnoses then
      [lit "Discuss your severe symptoms with a healthcare provider"]
    else []
  let riskLevel2 := if severeNoDiagnoses then .high else riskLevel1
  let unaddressed := highSeveritySymptoms.filter fun s =>
    !(diagnoses.any fun d =>
      match d.notes with
      | some nts => hasSub (lowerStr s.name) (lowerStr nts)
      | none => false)
  let concerns3 := concerns2 ++ unaddressed.map fun s =>
    lit "Your severe " ++ s.name ++
      lit " symptom may not be fully addressed by current diagnoses"
  let riskLevel3 := if unaddressed.isEmpty then riskLevel2 else .medium
  let recommendations2 := recommendations1 ++
    (match oracle.medicationInfoResults with
    | some results => (results.filter fun texts =>
        texts.any fun info => hasSub (lit "tell your doctor") (lowerStr info)).map
        fun _ => lit "Always tell your doctor about all symptoms, even ones that seem unrelated"
    | none => [])
  let recommendations3 := recommendations2 ++
    [lit "Always mention all symptoms to your healthcare provider",
     lit "Ask what your diagnosis means and what to expect",
     lit "Follow up if symptoms don't improve as expected"]
  { riskLevel := riskLevel3,
    potentialConcerns := dedupFirst concerns3,
    recommendations := dedupFirst recommendations3 }

/-- A `medicationErrorRisks` entry (MedicalSafetyService.ts lines 1753-1761). -/
structure MedicationErrorRisk where
  medicationName : Str
  commonErrors : List Str
  nearMisses : List Str
  preventionStrategies : List Str
  highAlertStatus : Bool
  lookAlikeSoundAlike : List Str
  riskLevel : RiskLevel
deriving DecidableEq

/-- The ISMP high-alert medication list (MedicalSafetyService.ts lines
1768-1787). -/
def highAlertMeds : List Str :=
  [lit "insulin", lit "heparin", lit "warfarin", lit "fentanyl",
   lit "hydromorphone", lit "morphine", lit "digoxin", lit "epinephrine",
   lit "norepinephrine", lit "potassium", lit "methotrexate",
   lit "chemotherapy", lit "anesthetics", lit "paralytics", lit "propofol",
   lit "midazolam", lit "lorazepam", lit "diazepam"]

/-- The look-alike/sound-alike map (MedicalSafetyService.ts lines
1790-1809), in object key order. -/
def lasaPairs : List (Str × List Str) :=
  [(lit "hydroxyzine", [lit "hydralazine"]),
   (lit "hydralazine", [lit "hydroxyzine"]),
   (lit "metoprolol", [lit "metoclopramide"]),
   (lit "metoclopramide", [lit "metoprolol"]),
   (lit "clonidine", [lit "clonazepam", lit "klonopin"]),
   (lit "clonazepam", [lit "clonidine"]),
   (lit "klonopin", [lit "clonidine"]),
   (lit "alprazolam", [lit "lorazepam"]),
   (lit "lorazepam", [lit "alprazolam"]),
   (lit "atenolol", [lit "albuterol", lit "timolol"]),
   (lit "albuterol", [lit "atenolol"]),
   (lit "amiodarone", [lit "amantadine"]),
   (lit "amantadine", [lit "amiodarone"]),
   (lit "celebrex", [lit "celexa", lit "cerebyx"]),
   (lit "celexa", [lit "celebrex", lit "cerebyx"]),
   (lit "cerebyx", [lit "celebrex", lit "celexa"]),
   (lit "tramadol", [lit "trazodone"]),
   (lit "trazodone", [lit "tramadol"])]

/-- The medication-specific common-error branch (MedicalSafetyService.ts
lines 1850-1913): the if/else-if chain keyed on the lower-cased name,
yielding the `(commonErrors, nearMisses, preventionStrategies)` pushes. -/
def medSpecific (medNameLower : Str) : List Str × List Str × List Str :=
  if hasSub (lit "insulin") medNameLower then
    ([lit "Using the wrong insulin type (rapid vs. long-acting)",
      lit "Miscalculation of insulin doses"],
     [lit "Selection of incorrect insulin strength or concentration"],
     [lit "Clearly differentiate between different insulin types",
      lit "Use insulin-specific syringes"])
  else if hasSub (lit "warfarin") medNameLower || hasSub (lit "coumadin") medNameLower then
    ([lit "Failure to adjust dose based on INR results",
      lit "Drug interactions not considered when prescribing"],
     [lit "Confusion between daily and weekly dosing schedules"],
     [lit "Regular INR monitoring",
      lit "Medication reconciliation at every healthcare encounter"])
  else if hasSub (lit "digoxin") medNameLower then
    ([lit "Failure to adjust dose for renal function or age",
      lit "Not monitoring for toxicity signs"],
     [lit "Decimal point errors in dosing"],
     [lit "Regular monitoring of digoxin levels",
      lit "Check renal function before dosing"])
  else if hasSub (lit "antibiotic") medNameLower || hasSub (lit "penicillin") medNameLower ||
      hasSub (lit "cephalosporin") medNameLower || hasSub (lit "azithromycin") medNameLower ||
      hasSub (lit "ciprofloxacin") medNameLower || hasSub (lit "amoxicillin") medNameLower then
    ([lit "Incorrect duration of therapy",
      lit "Failure to adjust dose for renal function"],
     [lit "Missing allergy information"],
     [lit "Verify allergy status before prescribing",
      lit "Double-check duration and frequency of antibiotics"])
  else if hasSub (lit "lisinopril") medNameLower || hasSub (lit "enalapril") medNameLower ||
      hasSub (lit "captopril") medNameLower || hasSub (lit "ace inhibitor") medNameLower then
    ([lit "Failure to monitor potassium and renal function"],
     [lit "Confusion with angiotensin receptor blockers"],
     [lit "Regular monitoring of electrolytes and kidney function"])
  else if hasSub (lit "metformin") medNameLower then
    ([lit "Use in patients with renal insufficiency",
      lit "Failure to hold before procedures with contrast dye"],
     [lit "Sound-alike confusion with metronidazole"],
     [lit "Check renal function before prescribing",
      lit "Hold medication before contrast studies"])
  else ([], [], [])

/-- The per-medication body of `analyzeMedicationErrorRisks`
(MedicalSafetyService.ts lines 1812-1950).  The `forEach` over the LASA
keys is rendered by filtering the matching keys in object order: the
appends are per matching key, and the repeated
`riskLevel = riskLevel === "low" ? "medium" : riskLevel` assignment
upgrades `low` to `medium` exactly when at least one key matches.  The
per-medication `try`/`catch` is unreachable, the body being total. -/
def medicationErrorRecord (medication : MedicationInput) : MedicationErrorRisk :=
  let medNameLower := lowerStr medication.name
  let highAlertStatus := highAlertMeds.any fun med => hasSub med medNameLower
  let riskLevel0 : RiskLevel := if highAlertStatus then .high else .low
  let commonErrors0 : List Str :=
    if highAlertStatus then
      [lit "Dosing errors can have severe or fatal consequences"]
    else []
  let preventionStrategies0 : List Str :=
    if highAlertStatus then
      [lit "Implement independent double-checks before administration",
       lit "Use standardized order sets or protocols when available"]
    else []
  let lasaMatches := lasaPairs.filter fun kv => hasSub (lowerStr kv.1) medNameLower
  let lookAlikeSoundAlike := lasaMatches.flatMap fun kv => kv.2
  let nearMisses1 := lasaMatches.map fun kv =>
    lit "Can be confused with " ++ joinSep (lit ", ") kv.2
  let preventionStrategies1 := lasaMatches.map fun _ =>
    lit "Use both brand and generic names when communicating medication information"
  let riskLevel1 :=
    if riskLevel0 = .low && !lasaMatches.isEmpty then .medium else riskLevel0
  let specific := medSpecific medNameLower
  let commonErrors1 := commonErrors0 ++ specific.1
  let nearMisses2 := nearMisses1 ++ specific.2.1
  let preventionStrategies2 := preventionStrategies0 ++ preventionStrategies1 ++ specific.2.2
  let commonErrors2 :=
    if commonErrors1.isEmpty then
      [lit "Wrong dose or frequency errors",
       lit "Failure to account for drug interactions"]
    else commonErrors1
  let nearMisses3 :=
    if nearMisses2.isEmpty then
      [lit "Look-alike packaging with other medications",
       lit "Sound-alike confusion during verbal orders"]
    else nearMisses2
  let preventionStrategies3 :=
    if preventionStrategies2.isEmpty then
      [lit "Double-check drug name, dose, route, and frequency",
       lit "Use electronic prescribing when available",
       lit "Confirm medication details with patient"]
    else preventionStrategies2
  let riskLevel2 :=
    if riskLevel1 = .low &&
        (3 < commonErrors2.length || 0 < lookAlikeSoundAlike.length) then
      .medium
    else riskLevel1
  { medicationName := medication.name,
    commonErrors := commonErrors2,
    nearMisses := nearMisses3,
    preventionStrategies := preventionStrategies3,
    highAlertStatus := highAlertStatus,
    lookAlikeSoundAlike := lookAlikeSoundAlike,
    riskLevel := riskLevel2 }

/-- The general record pushed when no medications are present
(MedicalSafetyService.ts lines 1973-1999). -/
def generalMedicationSafetyRecord : MedicationErrorRisk :=
  { medicationName := lit "General Medication Safety",
    commonErrors :=
      [lit "Wrong patient errors",
       lit "Wrong medication errors",
       lit "Wrong dose errors",
       lit "Wrong time errors",
       lit "Wrong route errors"],
    nearMisses :=
      [lit "Look-alike/sound-alike medication confusion",
       lit "Decimal point errors in dosing",
       lit "Unit of measure errors (mg vs. mcg)",
       lit "Misinterpreting abbreviations"],
    preventionStrategies :=
      [lit "Use the 'five rights' of medication administration: right patient, right drug, right dose, right route, right time",
       lit "Avoid using dangerous abbreviations",
       lit "Report all medication errors and near misses for system improvement",
       lit "Implement barcode medication administration when available"],
    highAlertStatus := false,
    lookAlikeSoundAlike := [],
    riskLevel := .medium }

/-- `analyzeMedicationErrorRisks` (MedicalSafetyService.ts lines
1750-2002): one record per medication, or the single general record when
the list is empty. -/
def analyzeMedicationErrorRisks (medications : List MedicationInput) :
    List MedicationErrorRisk :=
  let medicationErrorRisks := medications.map medicationErrorRecord
  if medicationErrorRisks.isEmpty then [generalMedicationSafetyRecord]
  else medicationErrorRisks

/-- Severity tag of the medication-effect records. -/
inductive EffectSeverity where
  | beneficial : EffectSeverity
  | neutral : EffectSeverity
  | concerning : EffectSeverity
deriving DecidableEq

/-- One `medicationSymptomEffects` entry (MedicalSafetyService.ts lines
1492-1498). -/
structure MedicationSymptomEffect where
  medicationName : Str
  symptomName : Str
  effect : Str
  recommendation : Str
  severity : EffectSeverity
deriving DecidableEq

/-- One `medicationDiagnosisEffects` entry (MedicalSafetyService.ts lines
1500-1506). -/
structure MedicationDiagnosisEffect where
  medicationName : Str
  diagnosisName : Str
  effect : Str
  recommendation : Str
  severity : EffectSeverity
deriving DecidableEq

/-- The pair of lists returned by `analyzeMedicationEffects`. -/
structure MedicationEffects where
  medicationSymptomEffects : List MedicationSymptomEffect
  medicationDiagnosisEffects : List MedicationDiagnosisEffect
deriving DecidableEq

/-- The `cdcInfo` block of an HAI-risk record (MedicalSafetyService.ts
lines 2494-2505). -/
structure CdcInfo where
  name : Str
  description : Str
  prevalence : Str
  mortalityRate : Str
  preventionStrategies : List Str
  patientSafetyTips : List Str
  cdcResourceUrl : Str
deriving DecidableEq

/-- An HAI-risk record as produced by `analyzeHAIRisks`
(MedicalSafetyService.ts lines 2475-2514). -/
structure HAIRisk where
  haiType : Str
  riskLevel : RiskLevel
  matchedSymptoms : List Str
  matchedDiagnoses : List Str
  cdcInfo : CdcInfo
  preventionTips : List Str
deriving DecidableEq

/-- The object returned by `getComprehensiveSafetyAnalysis`
(MedicalSafetyService.ts lines 2629-2637 and 2642-2667). -/
structure SafetyAnalysisReport where
  symptomSafetyData : List SymptomSafetyData
  diagnosisSafetyData : List DiagnosisSafetyData
  diagnosticErrorRisk : DiagnosticErrorRisk
  medicationEffects : MedicationEffects
  medicationErrorRisks : List MedicationErrorRisk
  haiRisks : List HAIRisk
  status : Str
  error : Option Str
deriving DecidableEq

/-- The status strings of the report contract. -/
def validStatus (s : Str) : Bool :=
  s = lit "success" || s = lit "partial" || s = lit "error"

/-- Results of the orchestrator's guarded sub-calls, as observed through
`safeApiCall` (which resolves to the callee's value, or to `null` when the
callee threw or the 8-second timeout fired) and through the individual
`try`/`catch` blocks: `none` is the failure case of each guard.
`evaluateDiagnosticErrorRisk` needs no entry: `safeApiCall` invokes it as
`apiFunction(params)` with `params = [symptoms, diagnoses]`, a single
array argument, so its `diagnoses` parameter is `undefined`, its first
`console.log` throws, and that sub-call always yields `null`. -/
structure AnalysisEnv where
  symptomSafety : Option (List SymptomSafetyData)
  diagnosisSafety : Option (List DiagnosisSafetyData)
  medicationEffects : Option MedicationEffects
  haiRisks : Option (List HAIRisk)

/-- The `diagnosticErrorRisk` fallback of the main path
(MedicalSafetyService.ts lines 2576-2585). -/
def diagRiskFallbackNoConnectivity : DiagnosticErrorRisk :=
  { riskLevel := .low,
    potentialConcerns :=
      [lit "Unable to evaluate diagnostic error risk without connectivity"],
    recommendations :=
      [lit "Keep track of all symptoms and when they began",
       lit "Share complete medical history with your healthcare provider"] }

/-- The `diagnosticErrorRisk` block of the top-level catch handler
(MedicalSafetyService.ts lines 2649-2658). -/
def diagRiskFallbackOnError : DiagnosticErrorRisk :=
  { riskLevel := .low,
    potentialConcerns :=
      [lit "Unable to evaluate diagnostic error risk due to an error"],
    recommendations :=
      [lit "Keep track of all symptoms and when they began",
       lit "Share complete medical history with your healthcare provider"] }

/-- The top-level catch handler of `getComprehensiveSafetyAnalysis`
(MedicalSafetyService.ts lines 2638-2667): it rebuilds the report from the
mock generators with `status: "partial"` and the original error message.
Its own `symptoms.map((s) => getMockSymptomSafetyData(s.description))`
evaluates `s.description` on `Symptom` values that have no such field, so
each call receives `undefined` and throws; an exception inside the catch
block propagates to the caller (`Except.error`). -/
def comprehensiveErrorReport (symptoms : List Symptom)
    (diagnoses : List Diagnosis) (e : Str) : Except Str SafetyAnalysisReport :=
  match symptoms.mapM fun _ => getMockSymptomSafetyData none with
  | .error e2 => .error e2
  | .ok mockSymptomData =>
    .ok {
      symptomSafetyData := mockSymptomData,
      diagnosisSafetyData := diagnoses.map fun d => getMockDiagnosisSafetyData d.name,
      diagnosticErrorRisk := diagRiskFallbackOnError,
      medicationEffects := { medicationSymptomEffects := [], medicationDiagnosisEffects := [] },
      medicationErrorRisks := [],
      haiRisks := [],
      status := lit "partial",
      error := some e }

/-- The symptom-safety extraction step (MedicalSafetyService.ts lines
2563-2566): the `safeApiCall` value when truthy, otherwise the mock
fallback map over `s.description` — which is `undefined` for every
`Symptom`, so the map throws at the first element. -/
def symptomSafetyStep (symptoms : List Symptom) (env : AnalysisEnv) :
    Except Str (List SymptomSafetyData) :=
  match env.symptomSafety with
  | some v => .ok v
  | none => symptoms.mapM fun _ => getMockSymptomSafetyData none

/-- `getComprehensiveSafetyAnalysis` (MedicalSafetyService.ts lines
2524-2669).  The `Promise.allSettled` over `safeApiCall` promises always
fulfills, so each `status === "fulfilled" && value` check reduces to the
truthiness of the `safeApiCall` result, i.e. to the `Option` in `env`.
On the symptom-safety fallback the source maps
`getMockSymptomSafetyData(s.description)` over the symptoms; `Symptom`
has no `description` field, so every element throws a `TypeError`, which
is caught by the top-level catch — whose handler then throws again. -/
def getComprehensiveSafetyAnalysis (symptoms : List Symptom)
    (diagnoses : List Diagnosis) (medications : List MedicationInput)
    (env : AnalysisEnv) : Except Str SafetyAnalysisReport :=
  match symptomSafetyStep symptoms env with
  | .error e => comprehensiveErrorReport symptoms diagnoses e
  | .ok extractedSymptomSafetyData =>
    .ok {
      symptomSafetyData := extractedSymptomSafetyData,
      diagnosisSafetyData :=
        match env.diagnosisSafety with
        | some v => v
        | none => diagnoses.map fun d => getMockDiagnosisSafetyData d.name,
      diagnosticErrorRisk := diagRiskFallbackNoConnectivity,
      medicationEffects :=
        if 0 < medications.length then
          match env.medicationEffects with
          | some v => v
          | none => { medicationSymptomEffects := [], medicationDiagnosisEffects := [] }
        else { medicationSymptomEffects := [], medicationDiagnosisEffects := [] },
      medicationErrorRisks :=
        if 0 < medications.length then analyzeMedicationErrorRisks medications
        else [],
      haiRisks := env.haiRisks.getD [],
      status := lit "success",
      error := none }

end MedicalSafetyService

/-!
## Theorems

Helper lemmas first, then one theorem per claim (with witnesses and
counterexamples where required).
-/

/-- A skipped strategy (after a hit) leaves the scan state unchanged. -/
theorem stepStrategy_done (hitFn : FdaService.DrugInteractionResponse → Bool)
    (src : Str) (out : FdaService.FetchOutcome) (st : FdaService.PairScan)
    (h : st.hasResults = true) : FdaService.stepStrategy hitFn src out st = st := by
  simp [FdaService.stepStrategy, h]

/-- A strategy whose outcome is not a hit leaves `hasResults` false and the
source string unchanged (it may overwrite the stored response). -/
theorem stepStrategy_miss (hitFn : FdaService.DrugInteractionResponse → Bool)
    (src : Str) (out : FdaService.FetchOutcome)
    (resp0 : Option FdaService.DrugInteractionResponse) (src0 : Str)
    (hm : FdaService.hitOutcome hitFn out = false) :
    ∃ resp, FdaService.stepStrategy hitFn src out
        { response := resp0, hasResults := false, interactionSource := src0 } =
      { response := resp, hasResults := false, interactionSource := src0 } := by
  cases out with
  | err => exact ⟨resp0, by simp [FdaService.stepStrategy]⟩
  | ok r =>
    have hr : hitFn r = false := hm
    exact ⟨some r, by simp [FdaService.stepStrategy, hr]⟩

/-- A hitting strategy attempted on a not-yet-successful state records its
response, its source string and the success flag. -/
theorem stepStrategy_hit (hitFn : FdaService.DrugInteractionResponse → Bool)
    (src : Str) (r : FdaService.DrugInteractionResponse) (st : FdaService.PairScan)
    (hst : st.hasResults = false) (hr : hitFn r = true) :
    FdaService.stepStrategy hitFn src (.ok r) st =
      { response := some r, hasResults := true, interactionSource := src } := by
  simp [FdaService.stepStrategy, hst, hr]

/-- `tryPair` through a successful scan state. -/
theorem tryPair_of_scan_hit (drug1 drug2 src : Str)
    (strat : Fin 5 → FdaService.FetchOutcome) (r : FdaService.DrugInteractionResponse)
    (h : FdaService.scanStrategies drug1 drug2 strat =
      { response := some r, hasResults := true, interactionSource := src }) :
    FdaService.tryPair drug1 drug2 strat =
      (if FdaService.firstHasInteractions r then
        some (FdaService.buildInteraction drug1 drug2 src r)
      else none) := by
  unfold FdaService.tryPair
  rw [h]
  simp

/-- `tryPair` through a failed scan state. -/
theorem tryPair_of_scan_fail (drug1 drug2 src : Str)
    (strat : Fin 5 → FdaService.FetchOutcome) (resp : Option FdaService.DrugInteractionResponse)
    (h : FdaService.scanStrategies drug1 drug2 strat =
      { response := resp, hasResults := false, interactionSource := src }) :
    FdaService.tryPair drug1 drug2 strat = none := by
  unfold FdaService.tryPair
  rw [h]
  cases resp <;> simp

/-- C7: for every description containing both a major and a moderate
trigger term, `determineSeverity` returns `major` (the major check runs
first), and the empty description yields `minor`. -/
theorem determineSeverity_major_precedence_and_empty :
    (∀ description : Str,
      (∃ t ∈ FdaService.majorTriggers, hasSub t (lowerStr description) = true) →
      (∃ t ∈ FdaService.moderateTriggers, hasSub t (lowerStr description) = true) →
      FdaService.determineSeverity description = .major)
    ∧ FdaService.determineSeverity (lit "") = .minor := by
  constructor
  · intro description hmaj _hmod
    have h : (FdaService.majorTriggers.any fun t => hasSub t (lowerStr description)) = true :=
      List.any_eq_true.mpr hmaj
    simp [FdaService.determineSeverity, h]
  · rfl

/-- Witness for C7 at a concrete description containing the major trigger
"avoid" and the moderate trigger "caution". -/
theorem determineSeverity_major_precedence_and_empty_witness :
    FdaService.determineSeverity (lit "Use caution and avoid this combination") = .major :=
  determineSeverity_major_precedence_and_empty.1 _
    ⟨lit "avoid", by decide, by decide⟩
    ⟨lit "caution", by decide, by decide⟩

/-- C10: on an empty medication list, `analyzeMedicationErrorRisks` returns
exactly the single "General Medication Safety" record, which is not
high-alert, has no look-alike/sound-alike entries, medium risk, and
non-empty error, near-miss and prevention lists. -/
theorem analyzeMedicationErrorRisks_empty_list :
    MedicalSafetyService.analyzeMedicationErrorRisks [] =
      [MedicalSafetyService.generalMedicationSafetyRecord]
    ∧ MedicalSafetyService.generalMedicationSafetyRecord.medicationName =
      lit "General Medication Safety"
    ∧ MedicalSafetyService.generalMedicationSafetyRecord.highAlertStatus = false
    ∧ MedicalSafetyService.generalMedicationSafetyRecord.lookAlikeSoundAlike = []
    ∧ MedicalSafetyService.generalMedicationSafetyRecord.riskLevel = .medium
    ∧ MedicalSafetyService.generalMedicationSafetyRecord.commonErrors ≠ []
    ∧ MedicalSafetyService.generalMedicationSafetyRecord.nearMisses ≠ []
    ∧ MedicalSafetyService.generalMedicationSafetyRecord.preventionStrategies ≠ [] := by
  refine ⟨rfl, rfl, rfl, rfl, rfl, ?_, ?_, ?_⟩ <;> decide

/-- C3 (code evaluation at the failing input): for a severity-9 headache
and no diagnoses (with both external fetches failing),
`evaluateDiagnosticErrorRisk` returns riskLevel `medium` — the
severe-symptom-without-diagnoses branch sets `high` but the subsequent
unaddressed-severe-symptom loop overwrites it with `medium` — while the
severe-symptoms concern is present as the claim says. -/
theorem evaluateDiagnosticErrorRisk_severe_no_diagnoses :
    (MedicalSafetyService.evaluateDiagnosticErrorRisk
        [{ id := lit "1", name := lit "headache", severity := 9,
           dateRecorded := lit "1/1/2025", notes := none }] []
        { misdiagnosisEvents := none, medicationInfoResults := none }).riskLevel =
      .medium
    ∧ lit "You have severe symptoms without documented diagnoses. This may indicate a need for further evaluation." ∈
      (MedicalSafetyService.evaluateDiagnosticErrorRisk
        [{ id := lit "1", name := lit "headache", severity := 9,
           dateRecorded := lit "1/1/2025", notes := none }] []
        { misdiagnosisEvents := none, medicationInfoResults := none }).potentialConcerns := by
  constructor
  · rfl
  · decide

/-- C8: the interaction aggregator is a pure function of the medication
list and the external responses — two runs receiving identical
source responses produce identical record lists. -/
theorem checkMedicationInteractions_deterministic (medications : List Str)
    (oracle1 oracle2 : Nat → Nat → Fin 5 → FdaService.FetchOutcome)
    (h : ∀ i j s, oracle1 i j s = oracle2 i j s) :
    FdaService.checkMedicationInteractions medications oracle1 =
      FdaService.checkMedicationInteractions medications oracle2 := by
  have ho : oracle1 = oracle2 := funext fun i => funext fun j => funext fun s => h i j s
  rw [ho]

/-- Witness for C8 at a concrete medication list and oracle. -/
theorem checkMedicationInteractions_deterministic_witness :
    FdaService.checkMedicationInteractions [lit "Warfarin", lit "Ibuprofen"]
        (fun _ _ _ => .err) =
      FdaService.checkMedicationInteractions [lit "Warfarin", lit "Ibuprofen"]
        (fun _ _ _ => .err) :=
  checkMedicationInteractions_deterministic _ _ _ fun _ _ _ => rfl

/-- Per-medication form of the high-alert invariant: the look-alike and
collective-factor adjustments only upgrade `low`, never downgrade the
`high` set by the high-alert branch. -/
theorem medicationErrorRecord_highAlert_riskLevel
    (medication : MedicalSafetyService.MedicationInput)
    (h : (MedicalSafetyService.medicationErrorRecord medication).highAlertStatus = true) :
    (MedicalSafetyService.medicationErrorRecord medication).riskLevel = .high := by
  have hb : (MedicalSafetyService.highAlertMeds.any fun med =>
      hasSub med (lowerStr medication.name)) = true := h
  simp [MedicalSafetyService.medicationErrorRecord, hb]

/-- C9: every record produced by `analyzeMedicationErrorRisks` with
`highAlertStatus` true has riskLevel `high`. -/
theorem analyzeMedicationErrorRisks_highAlert_high
    (medications : List MedicalSafetyService.MedicationInput)
    (rec : MedicalSafetyService.MedicationErrorRisk)
    (hmem : rec ∈ MedicalSafetyService.analyzeMedicationErrorRisks medications)
    (hha : rec.highAlertStatus = true) : rec.riskLevel = .high := by
  unfold MedicalSafetyService.analyzeMedicationErrorRisks at hmem
  cases medications with
  | nil =>
    simp at hmem
    rw [hmem] at hha
    exact absurd hha (by decide)
  | cons m t =>
    simp only [List.isEmpty_cons, if_neg Bool.false_ne_true] at hmem
    obtain ⟨med, _hmedmem, rfl⟩ := List.mem_map.mp hmem
    exact medicationErrorRecord_highAlert_riskLevel med hha

/-- Witness for C9 at a concrete high-alert medication. -/
theorem analyzeMedicationErrorRisks_highAlert_high_witness :
    (MedicalSafetyService.medicationErrorRecord
      { id := lit "1", name := lit "Insulin Glargine", dosage := lit "10 units" }).riskLevel =
      .high :=
  analyzeMedicationErrorRisks_highAlert_high
    [{ id := lit "1", name := lit "Insulin Glargine", dosage := lit "10 units" }] _
    (by decide) (by decide)

/-- C4: for every pair, the five strategies are tried in their fixed order
and the cascade stops at the first hitting strategy `k`: any oracle
agreeing with `strat` on strategies up to and including `k` (and arbitrary
beyond) yields the same result, and the record is built from strategy
`k`'s response and source label (subject to the final first-result guard,
which every hit of strategies 1-4 satisfies). -/
theorem tryPair_first_hit_wins (drug1 drug2 : Str)
    (strat strat2 : Fin 5 → FdaService.FetchOutcome) (k : Fin 5)
    (r : FdaService.DrugInteractionResponse)
    (hk : strat k = .ok r)
    (hhit : FdaService.strategyHitFn drug2 k r = true)
    (hmiss : ∀ m, m < k → FdaService.stratHit drug2 m (strat m) = false)
    (hagree : ∀ m, m ≤ k → strat2 m = strat m) :
    FdaService.tryPair drug1 drug2 strat2 =
      if FdaService.firstHasInteractions r then
        some (FdaService.buildInteraction drug1 drug2
          (FdaService.stratSources drug1 drug2 k) r)
      else none := by
  fin_cases k
  · have hk0 : strat 0 = .ok r := hk
    have hhit0 : FdaService.strategyHitFn drug2 0 r = true := hhit
    have a0 := hagree 0 (by decide)
    show FdaService.tryPair drug1 drug2 strat2 =
      if FdaService.firstHasInteractions r then
        some (FdaService.buildInteraction drug1 drug2
          (FdaService.stratSources drug1 drug2 0) r)
      else none
    have ehit : FdaService.stepStrategy (FdaService.strategyHitFn drug2 0)
        (FdaService.stratSources drug1 drug2 0) (strat2 0)
        { response := none, hasResults := false, interactionSource := [] } =
        { response := some r, hasResults := true,
          interactionSource := FdaService.stratSources drug1 drug2 0 } := by
      rw [a0, hk0]
      exact stepStrategy_hit _ _ _ _ rfl hhit0
    refine tryPair_of_scan_hit _ _ _ _ _ ?_
    unfold FdaService.scanStrategies
    rw [ehit, stepStrategy_done _ _ _ _ rfl, stepStrategy_done _ _ _ _ rfl,
      stepStrategy_done _ _ _ _ rfl, stepStrategy_done _ _ _ _ rfl]
  · have hk0 : strat 1 = .ok r := hk
    have hhit0 : FdaService.strategyHitFn drug2 1 r = true := hhit
    have a0 := hagree 0 (by decide)
    have a1 := hagree 1 (by decide)
    show FdaService.tryPair drug1 drug2 strat2 =
      if FdaService.firstHasInteractions r then
        some (FdaService.buildInteraction drug1 drug2
          (FdaService.stratSources drug1 drug2 1) r)
      else none
    have m0 : FdaService.hitOutcome (FdaService.strategyHitFn drug2 0) (strat2 0) = false := by
      rw [a0]; exact hmiss 0 (by decide)
    obtain ⟨r1, e1⟩ := stepStrategy_miss (FdaService.strategyHitFn drug2 0)
      (FdaService.stratSources drug1 drug2 0) (strat2 0) none [] m0
    have ehit : FdaService.stepStrategy (FdaService.strategyHitFn drug2 1)
        (FdaService.stratSources drug1 drug2 1) (strat2 1)
        { response := r1, hasResults := false, interactionSource := [] } =
        { response := some r, hasResults := true,
          interactionSource := FdaService.stratSources drug1 drug2 1 } := by
      rw [a1, hk0]
      exact stepStrategy_hit _ _ _ _ rfl hhit0
    refine tryPair_of_scan_hit _ _ _ _ _ ?_
    unfold FdaService.scanStrategies
    rw [e1, ehit, stepStrategy_done _ _ _ _ rfl, stepStrategy_done _ _ _ _ rfl,
      stepStrategy_done _ _ _ _ rfl]
  · have hk0 : strat 2 = .ok r := hk
    have hhit0 : FdaService.strategyHitFn drug2 2 r = true := hhit
    have a0 := hagree 0 (by decide)
    have a1 := hagree 1 (by decide)
    have a2 := hagree 2 (by decide)
    show FdaService.tryPair drug1 drug2 strat2 =
      if FdaService.firstHasInteractions r then
        some (FdaService.buildInteraction drug1 drug2
          (FdaService.stratSources drug1 drug2 2) r)
      else none
    have m0 : FdaService.hitOutcome (FdaService.strategyHitFn drug2 0) (strat2 0) = false := by
      rw [a0]; exact hmiss 0 (by decide)
    obtain ⟨r1, e1⟩ := stepStrategy_miss (FdaService.strategyHitFn drug2 0)
      (FdaService.stratSources drug1 drug2 0) (strat2 0) none [] m0
    have m1 : FdaService.hitOutcome (FdaService.strategyHitFn drug2 1) (strat2 1) = false := by
      rw [a1]; exact hmiss 1 (by decide)
    obtain ⟨r2, e2⟩ := stepStrategy_miss (FdaService.strategyHitFn drug2 1)
      (FdaService.stratSources drug1 drug2 1) (strat2 1) r1 [] m1
    have ehit : FdaService.stepStrategy (FdaService.strategyHitFn drug2 2)
        (FdaService.stratSources drug1 drug2 2) (strat2 2)
        { response := r2, hasResults := false, interactionSource := [] } =
        { response := some r, hasResults := true,
          interactionSource := FdaService.stratSources drug1 drug2 2 } := by
      rw [a2, hk0]
      exact stepStrategy_hit _ _ _ _ rfl hhit0
    refine tryPair_of_scan_hit _ _ _ _ _ ?_
    unfold FdaService.scanStrategies
    rw [e1, e2, ehit, stepStrategy_done _ _ _ _ rfl, stepStrategy_done _ _ _ _ rfl]
  · have hk0 : strat 3 = .ok r := hk
    have hhit0 : FdaService.strategyHitFn drug2 3 r = true := hhit
    have a0 := hagree 0 (by decide)
    have a1 := hagree 1 (by decide)
    have a2 := hagree 2 (by decide)
    have a3 := hagree 3 (by decide)
    show FdaService.tryPair drug1 drug2 strat2 =
      if FdaService.firstHasInteractions r then
        some (FdaService.buildInteraction drug1 drug2
          (FdaService.stratSources drug1 drug2 3) r)
      else none
    have m0 : FdaService.hitOutcome (FdaService.strategyHitFn drug2 0) (strat2 0) = false := by
      rw [a0]; exact hmiss 0 (by decide)
    obtain ⟨r1, e1⟩ := stepStrategy_miss (FdaService.strategyHitFn drug2 0)
      (FdaService.stratSources drug1 drug2 0) (strat2 0) none [] m0
    have m1 : FdaService.hitOutcome (FdaService.strategyHitFn drug2 1) (strat2 1) = false := by
      rw [a1]; exact hmiss 1 (by decide)
    obtain ⟨r2, e2⟩ := stepStrategy_miss (FdaService.strategyHitFn drug2 1)
      (FdaService.stratSources drug1 drug2 1) (strat2 1) r1 [] m1
    have m2 : FdaService.hitOutcome (FdaService.strategyHitFn drug2 2) (strat2 2) = false := by
      rw [a2]; exact hmiss 2 (by decide)
    obtain ⟨r3, e3⟩ := stepStrategy_miss (FdaService.strategyHitFn drug2 2)
      (FdaService.stratSources drug1 drug2 2) (strat2 2) r2 [] m2
    have ehit : FdaService.stepStrategy (FdaService.strategyHitFn drug2 3)
        (FdaService.stratSources drug1 drug2 3) (strat2 3)
        { response := r3, hasResults := false, interactionSource := [] } =
        { response := some r, hasResults := true,
          interactionSource := FdaService.stratSources drug1 drug2 3 } := by
      rw [a3, hk0]
      exact stepStrategy_hit _ _ _ _ rfl hhit0
    refine tryPair_of_scan_hit _ _ _ _ _ ?_
    unfold FdaService.scanStrategies
    rw [e1, e2, e3, ehit, stepStrategy_done _ _ _ _ rfl]
  · have hk0 : strat 4 = .ok r := hk
    have hhit0 : FdaService.strategyHitFn drug2 4 r = true := hhit
    have a0 := hagree 0 (by decide)
    have a1 := hagree 1 (by decide)
    have a2 := hagree 2 (by decide)
    have a3 := hagree 3 (by decide)
    have a4 := hagree 4 (by decide)
    show FdaService.tryPair drug1 drug2 strat2 =
      if FdaService.firstHasInteractions r then
        some (FdaService.buildInteraction drug1 drug2
          (FdaService.stratSources drug1 drug2 4) r)
      else none
    have m0 : FdaService.hitOutcome (FdaService.strategyHitFn drug2 0) (strat2 0) = false := by
      rw [a0]; exact hmiss 0 (by decide)
    obtain ⟨r1, e1⟩ := stepStrategy_miss (FdaService.strategyHitFn drug2 0)
      (FdaService.stratSources drug1 drug2 0) (strat2 0) none [] m0
    have m1 : FdaService.hitOutcome (FdaService.strategyHitFn drug2 1) (strat2 1) = false := by
      rw [a1]; exact hmiss 1 (by decide)
    obtain ⟨r2, e2⟩ := stepStrategy_miss (FdaService.strategyHitFn drug2 1)
      (FdaService.stratSources drug1 drug2 1) (strat2 1) r1 [] m1
    have m2 : FdaService.hitOutcome (FdaService.strategyHitFn drug2 2) (strat2 2) = false := by
      rw [a2]; exact hmiss 2 (by decide)
    obtain ⟨r3, e3⟩ := stepStrategy_miss (FdaService.strategyHitFn drug2 2)
      (FdaService.stratSources drug1 drug2 2) (strat2 2) r2 [] m2
    have m3 : FdaService.hitOutcome (FdaService.strategyHitFn drug2 3) (strat2 3) = false := by
      rw [a3]; exact hmiss 3 (by decide)
    obtain ⟨r4, e4⟩ := stepStrategy_miss (FdaService.strategyHitFn drug2 3)
      (FdaService.stratSources drug1 drug2 3) (strat2 3) r3 [] m3
    have ehit : FdaService.stepStrategy (FdaService.strategyHitFn drug2 4)
        (FdaService.stratSources drug1 drug2 4) (strat2 4)
        { response := r4, hasResults := false, interactionSource := [] } =
        { response := some r, hasResults := true,
          interactionSource := FdaService.stratSources drug1 drug2 4 } := by
      rw [a4, hk0]
      exact stepStrategy_hit _ _ _ _ rfl hhit0
    refine tryPair_of_scan_hit _ _ _ _ _ ?_
    unfold FdaService.scanStrategies
    rw [e1, e2, e3, e4, ehit]

/-- Witness for C4: a strategy-1 hit on a concrete response. -/
theorem tryPair_first_hit_wins_witness :
    FdaService.tryPair (lit "a") (lit "b")
        (fun _ => .ok { results := [{ drug_interactions := some [lit "x"] }] }) =
      if FdaService.firstHasInteractions
          { results := [{ drug_interactions := some [lit "x"] }] } then
        some (FdaService.buildInteraction (lit "a") (lit "b")
          (FdaService.stratSources (lit "a") (lit "b") 0)
          { results := [{ drug_interactions := some [lit "x"] }] })
      else none :=
  tryPair_first_hit_wins (lit "a") (lit "b") _ _ 0 _ rfl (by decide)
    (by decide) (fun _ _ => rfl)

/-- If the cascade never hits, `tryPair` yields no record. -/
theorem tryPair_none_of_all_miss (drug1 drug2 : Str)
    (strat : Fin 5 → FdaService.FetchOutcome)
    (hfail : ∀ s : Fin 5, FdaService.stratHit drug2 s (strat s) = false) :
    FdaService.tryPair drug1 drug2 strat = none := by
  obtain ⟨r1, e1⟩ := stepStrategy_miss (FdaService.strategyHitFn drug2 0)
    (FdaService.stratSources drug1 drug2 0) (strat 0) none [] (hfail 0)
  obtain ⟨r2, e2⟩ := stepStrategy_miss (FdaService.strategyHitFn drug2 1)
    (FdaService.stratSources drug1 drug2 1) (strat 1) r1 [] (hfail 1)
  obtain ⟨r3, e3⟩ := stepStrategy_miss (FdaService.strategyHitFn drug2 2)
    (FdaService.stratSources drug1 drug2 2) (strat 2) r2 [] (hfail 2)
  obtain ⟨r4, e4⟩ := stepStrategy_miss (FdaService.strategyHitFn drug2 3)
    (FdaService.stratSources drug1 drug2 3) (strat 3) r3 [] (hfail 3)
  obtain ⟨r5, e5⟩ := stepStrategy_miss (FdaService.strategyHitFn drug2 4)
    (FdaService.stratSources drug1 drug2 4) (strat 4) r4 [] (hfail 4)
  refine tryPair_of_scan_fail drug1 drug2 [] strat r5 ?_
  unfold FdaService.scanStrategies
  rw [e1, e2, e3, e4, e5]

/-- Dropping an element on which `f` yields `none` does not change a
`filterMap`. -/
theorem filterMap_eq_filter_ne {α β : Type} [DecidableEq α]
    (f : α → Option β) (a : α) (hf : f a = none) :
    ∀ l : List α, l.filterMap f = (l.filter fun x => x ≠ a).filterMap f := by
  intro l
  induction l with
  | nil => rfl
  | cons x t ih =>
    by_cases hx : x = a
    · subst hx
      simp [List.filterMap_cons, hf, List.filter_cons, ih]
    · cases hfx : f x with
      | none => simp [List.filterMap_cons, List.filter_cons, hx, hfx, ih]
      | some b => simp [List.filterMap_cons, List.filter_cons, hx, hfx, ih]

/-- C6: a pair for which all five strategies fail contributes no record and
raises nothing; the output is exactly what the remaining pairs produce. -/
theorem pair_total_failure_no_record (medications : List Str)
    (oracle : Nat → Nat → Fin 5 → FdaService.FetchOutcome) (i j : Nat)
    (hfail : ∀ s : Fin 5,
      FdaService.stratHit (medications.getD j []) s (oracle i j s) = false) :
    FdaService.pairContribution medications oracle (i, j) = none ∧
    FdaService.checkMedicationInteractions medications oracle =
      ((FdaService.allPairs medications.length).filter fun p => p ≠ (i, j)).filterMap
        (FdaService.pairContribution medications oracle) := by
  have hnone : FdaService.pairContribution medications oracle (i, j) = none := by
    show (if isBlank (medications.getD i []) || isBlank (medications.getD j []) then
        (none : Option FdaService.MedicationInteraction)
      else FdaService.tryPair (medications.getD i []) (medications.getD j [])
        (oracle i j)) = none
    cases hb : isBlank (medications.getD i []) || isBlank (medications.getD j []) with
    | true => exact if_pos rfl
    | false =>
      rw [if_neg (by simp)]
      exact tryPair_none_of_all_miss _ _ _ hfail
  refine ⟨hnone, ?_⟩
  unfold FdaService.checkMedicationInteractions
  exact filterMap_eq_filter_ne _ _ hnone _

/-- Witness for C6: both names present, every strategy erroring. -/
theorem pair_total_failure_no_record_witness :
    FdaService.pairContribution [lit "a", lit "b"] (fun _ _ _ => .err) (0, 1) = none ∧
    FdaService.checkMedicationInteractions [lit "a", lit "b"] (fun _ _ _ => .err) =
      ((FdaService.allPairs [lit "a", lit "b"].length).filter fun p => p ≠ (0, 1)).filterMap
        (FdaService.pairContribution [lit "a", lit "b"] (fun _ _ _ => .err)) :=
  pair_total_failure_no_record [lit "a", lit "b"] (fun _ _ _ => .err) 0 1
    (by decide)

/-- Shifting the subtrahend: summing `m + 1 - (i + 1)` over indices below
`m` adds one per index compared with `m - (i + 1)`. -/
theorem sum_map_succ_sub (m : Nat) : ∀ l : List Nat, (∀ i ∈ l, i < m) →
    ((l.map fun i => m + 1 - (i + 1)).sum =
      (l.map fun i => m - (i + 1)).sum + l.length) := by
  intro l
  induction l with
  | nil => intro _; rfl
  | cons x t ih =>
    intro h
    simp only [List.map_cons, List.sum_cons, List.length_cons]
    have hx : x < m := h x (by simp)
    have ht : ∀ i ∈ t, i < m := fun i hi => h i (by simp [hi])
    rw [ih ht]
    omega

/-- Twice the sum of `n - (i + 1)` over `i < n` is `n * (n - 1)`. -/
theorem sum_range_sub (n : Nat) :
    (((List.range n).map fun i => n - (i + 1)).sum) * 2 = n * (n - 1) := by
  induction n with
  | zero => rfl
  | succ m ih =>
    rw [List.range_succ, List.map_append, List.sum_append]
    simp only [List.map_cons, List.map_nil, List.sum_cons, List.sum_nil]
    rw [sum_map_succ_sub m (List.range m) (fun i hi => List.mem_range.mp hi)]
    rw [List.length_range]
    cases m with
    | zero => rfl
    | succ m2 =>
      have expand :
          (((List.range (m2 + 1)).map fun i => m2 + 1 - (i + 1)).sum +
              (m2 + 1) + (m2 + 1 + 1 - (m2 + 1 + 1) + 0)) * 2 =
            (((List.range (m2 + 1)).map fun i => m2 + 1 - (i + 1)).sum) * 2 +
              2 * (m2 + 1) := by
        omega
      rw [expand, ih]
      have : m2 + 1 + 1 - 1 = m2 + 1 := rfl
      rw [this]
      have : m2 + 1 - 1 = m2 := rfl
      rw [this]
      ring

/-- Membership in the enumerated pairs: exactly the index pairs `i < j < n`. -/
theorem mem_allPairs (n : Nat) (p : Nat × Nat) :
    p ∈ FdaService.allPairs n ↔ p.1 < p.2 ∧ p.2 < n := by
  unfold FdaService.allPairs
  rw [List.mem_flatMap]
  constructor
  · rintro ⟨i, hi, hp⟩
    rw [List.mem_map] at hp
    obtain ⟨j, hj, rfl⟩ := hp
    rw [List.mem_range'_1] at hj
    rw [List.mem_range] at hi
    exact ⟨by omega, by omega⟩
  · rintro ⟨h1, h2⟩
    refine ⟨p.1, ?_, ?_⟩
    · rw [List.mem_range]; omega
    · rw [List.mem_map]
      refine ⟨p.2, ?_, rfl⟩
      rw [List.mem_range'_1]
      omega

/-- The enumerated pairs are distinct: each pair is considered once. -/
theorem nodup_allPairs (n : Nat) : (FdaService.allPairs n).Nodup := by
  unfold FdaService.allPairs
  rw [List.nodup_flatMap]
  constructor
  · intro i _
    refine List.Nodup.map ?_ (List.nodup_range' _ _)
    intro a b hab
    injection hab
  · refine (List.nodup_range n).imp ?_
    intro i i2 hne p hp1 hp2
    rw [List.mem_map] at hp1 hp2
    obtain ⟨j1, _, rfl⟩ := hp1
    obtain ⟨j2, _, h2⟩ := hp2
    injection h2 with h2a _
    exact hne h2a.symm

/-- The number of enumerated pairs is `n * (n - 1) / 2`. -/
theorem length_allPairs (n : Nat) :
    (FdaService.allPairs n).length = n * (n - 1) / 2 := by
  unfold FdaService.allPairs
  rw [List.length_flatMap]
  have hmap : (List.range n).map
      (List.length ∘ fun i => (List.range' (i + 1) (n - (i + 1))).map fun j => (i, j)) =
      (List.range n).map fun i => n - (i + 1) := by
    refine List.map_congr_left ?_
    intro a _
    simp [List.length_range']
  rw [hmap]
  exact (Nat.div_eq_of_eq_mul_left (by norm_num) (sum_range_sub n).symm).symm

/-- C5 counterexample: with a blank name in the list, lookups are issued
for fewer than `n * (n - 1) / 2` pairs (here zero rather than one). -/
theorem issuedLookupPairs_blank_counterexample :
    ¬ ((FdaService.issuedLookupPairs [lit "a", lit ""]).length =
      [lit "a", lit ""].length * ([lit "a", lit ""].length - 1) / 2) := by
  decide

/-- C5 amended: the nested loops enumerate every index pair `i < j` exactly
once — `n * (n - 1) / 2` pairs in total — and lookups are issued exactly
for the enumerated pairs with two non-blank names; when no name is blank
that is all `n * (n - 1) / 2` of them. -/
theorem issuedLookupPairs_all_nonblank (medications : List Str)
    (h : ∀ s ∈ medications, isBlank s = false) :
    FdaService.issuedLookupPairs medications = FdaService.allPairs medications.length
    ∧ (FdaService.issuedLookupPairs medications).length =
      medications.length * (medications.length - 1) / 2
    ∧ (FdaService.allPairs medications.length).Nodup
    ∧ ∀ p : Nat × Nat, p ∈ FdaService.allPairs medications.length ↔
        p.1 < p.2 ∧ p.2 < medications.length := by
  have heq : FdaService.issuedLookupPairs medications =
      FdaService.allPairs medications.length := by
    unfold FdaService.issuedLookupPairs
    rw [List.filter_eq_self]
    intro p hp
    obtain ⟨h1, h2⟩ := (mem_allPairs medications.length p).mp hp
    have e1 : medications.getD p.1 [] = medications[p.1] :=
      List.getD_eq_getElem medications [] (by omega)
    have e2 : medications.getD p.2 [] = medications[p.2] :=
      List.getD_eq_getElem medications [] (by omega)
    rw [e1, e2, h medications[p.1] (List.getElem_mem _),
      h medications[p.2] (List.getElem_mem _)]
    rfl
  refine ⟨heq, ?_, nodup_allPairs _, mem_allPairs _⟩
  rw [heq]
  exact length_allPairs _

/-- Witness for C5 amended at a concrete three-element list. -/
theorem issuedLookupPairs_all_nonblank_witness :
    (FdaService.issuedLookupPairs [lit "a", lit "b", lit "c"]).length =
      [lit "a", lit "b", lit "c"].length * ([lit "a", lit "b", lit "c"].length - 1) / 2 :=
  (issuedLookupPairs_all_nonblank [lit "a", lit "b", lit "c"] (by decide)).2.1

/-- C1 (code evaluation at the failing input): one recorded symptom and a
failed (or timed-out) symptom-safety sub-call make the orchestrator's
fallback evaluate `getMockSymptomSafetyData(s.description)` with
`s.description` undefined; the `TypeError` is re-raised inside the
top-level catch handler, so the call rejects instead of returning a
report. -/
theorem getComprehensiveSafetyAnalysis_rejects_on_symptom_fallback :
    MedicalSafetyService.getComprehensiveSafetyAnalysis
        [{ id := lit "1", name := lit "headache", severity := 9,
           dateRecorded := lit "1/1/2025", notes := none }] [] []
        { symptomSafety := none, diagnosisSafety := none,
          medicationEffects := none, haiRisks := none } =
      .error (lit "TypeError: Cannot read properties of undefined (reading 'toLowerCase')") := by
  rfl

/-- C2 counterexample: with every guarded sub-call failing, the report is
assembled entirely from the fallbacks (its `diagnosticErrorRisk` is the
"without connectivity" fallback), yet its status is `"success"` — not the
`"partial"` the claim requires when sub-analyses fall back. -/
theorem orchestrator_success_despite_fallback :
    MedicalSafetyService.getComprehensiveSafetyAnalysis [] [] []
        { symptomSafety := none, diagnosisSafety := none,
          medicationEffects := none, haiRisks := none } =
      .ok {
        symptomSafetyData := [], diagnosisSafetyData := [],
        diagnosticErrorRisk := MedicalSafetyService.diagRiskFallbackNoConnectivity,
        medicationEffects := { medicationSymptomEffects := [], medicationDiagnosisEffects := [] },
        medicationErrorRisks := [], haiRisks := [],
        status := lit "success", error := none }
    ∧ lit "success" ≠ lit "partial" := by
  exact ⟨rfl, by decide⟩

/-- A failing symptom step comes from the mock fallback map. -/
theorem symptomSafetyStep_error (symptoms : List MedicalSafetyService.Symptom)
    (env : MedicalSafetyService.AnalysisEnv) (e : Str)
    (h : MedicalSafetyService.symptomSafetyStep symptoms env = .error e) :
    (symptoms.mapM fun _ => MedicalSafetyService.getMockSymptomSafetyData none) =
      .error e := by
  unfold MedicalSafetyService.symptomSafetyStep at h
  cases henv : env.symptomSafety with
  | some v =>
    rw [henv] at h
    exact absurd h (by simp)
  | none =>
    rw [henv] at h
    exact h

/-- C2 amended: every report the orchestrator actually returns has status
`"success"`, regardless of how many sub-analyses fell back to local mock
data, and the top-level catch handler labels its best-effort mock report
`"partial"` (never `"error"`), carrying the original error message. -/
theorem orchestrator_status_values :
    (∀ (symptoms : List MedicalSafetyService.Symptom)
      (diagnoses : List MedicalSafetyService.Diagnosis)
      (medications : List MedicalSafetyService.MedicationInput)
      (env : MedicalSafetyService.AnalysisEnv)
      (r : MedicalSafetyService.SafetyAnalysisReport),
      MedicalSafetyService.getComprehensiveSafetyAnalysis symptoms diagnoses
        medications env = .ok r →
      r.status = lit "success")
    ∧ (∀ (symptoms : List MedicalSafetyService.Symptom)
      (diagnoses : List MedicalSafetyService.Diagnosis) (e : Str)
      (r : MedicalSafetyService.SafetyAnalysisReport),
      MedicalSafetyService.comprehensiveErrorReport symptoms diagnoses e = .ok r →
      r.status = lit "partial" ∧ r.error = some e) := by
  have hcatch : ∀ (symptoms : List MedicalSafetyService.Symptom)
      (diagnoses : List MedicalSafetyService.Diagnosis) (e : Str)
      (r : MedicalSafetyService.SafetyAnalysisReport),
      MedicalSafetyService.comprehensiveErrorReport symptoms diagnoses e = .ok r →
      r.status = lit "partial" ∧ r.error = some e := by
    intro symptoms diagnoses e r h
    unfold MedicalSafetyService.comprehensiveErrorReport at h
    cases hm : symptoms.mapM fun _ => MedicalSafetyService.getMockSymptomSafetyData none with
    | error e2 =>
      rw [hm] at h
      exact absurd h (by simp)
    | ok v =>
      rw [hm] at h
      injection h with h
      rw [← h]
      exact ⟨rfl, rfl⟩
  refine ⟨?_, hcatch⟩
  intro symptoms diagnoses medications env r h
  unfold MedicalSafetyService.getComprehensiveSafetyAnalysis at h
  cases hs : MedicalSafetyService.symptomSafetyStep symptoms env with
  | ok v =>
    rw [hs] at h
    injection h with h
    rw [← h]
  | error e =>
    rw [hs] at h
    have hmap := symptomSafetyStep_error symptoms env e hs
    unfold MedicalSafetyService.comprehensiveErrorReport at h
    rw [hmap] at h
    exact absurd h (by simp)

/-- Witness for C2 amended: a successful run and a concrete catch-handler
report. -/
theorem orchestrator_status_values_witness :
    ({
      symptomSafetyData := [], diagnosisSafetyData := [],
      diagnosticErrorRisk := MedicalSafetyService.diagRiskFallbackNoConnectivity,
      medicationEffects := { medicationSymptomEffects := [], medicationDiagnosisEffects := [] },
      medicationErrorRisks := [], haiRisks := [],
      status := lit "success",
      error := none } : MedicalSafetyService.SafetyAnalysisReport).status = lit "success"
    ∧ (({
      symptomSafetyData := [], diagnosisSafetyData := [],
      diagnosticErrorRisk := MedicalSafetyService.diagRiskFallbackOnError,
      medicationEffects := { medicationSymptomEffects := [], medicationDiagnosisEffects := [] },
      medicationErrorRisks := [], haiRisks := [],
      status := lit "partial",
      error := some (lit "boom") } : MedicalSafetyService.SafetyAnalysisReport).status = lit "partial"
    ∧ ({
      symptomSafetyData := [], diagnosisSafetyData := [],
      diagnosticErrorRisk := MedicalSafetyService.diagRiskFallbackOnError,
      medicationEffects := { medicationSymptomEffects := [], medicationDiagnosisEffects := [] },
      medicationErrorRisks := [], haiRisks := [],
      status := lit "partial",
      error := some (lit "boom") } : MedicalSafetyService.SafetyAnalysisReport).error =
      some (lit "boom")) :=
  ⟨orchestrator_status_values.1 [] [] []
      { symptomSafety := some [], diagnosisSafety := some [],
        medicationEffects := none, haiRisks := none } _ rfl,
    orchestrator_status_values.2 [] [] (lit "boom") _ rfl⟩
